import Mathlib

/-!
Shallow embedding of the TransformiX CRM Node backend (final variant of the
server source: schema inference, dynamic DDL/DML generation, value coercion,
pagination and the dataset lifecycle of the upload / check-table / data
endpoints), together with theorems settling the spec claims about it.

JS runtime values appearing in parsed CSV rows are modelled by `JSVal`;
host-provided parsing functions whose exact behaviour lives in the JS engine
(`Number`, `parseFloat`, `new Date(string)`, `Date.prototype.toISOString`,
`parseInt`) are abstracted into a `JsHost` record, and all theorems quantify
over the host. JS numbers are modelled by integers (the claims under
verification never depend on fractional values).
-/

/-- A JavaScript value as it can appear in a parsed CSV row: `null`,
`undefined`, a string, a number, a boolean, or a `Date` (milliseconds since
the epoch). -/
inductive JSVal where
  | null
  | undef
  | str (s : String)
  | num (n : Int)
  | bool (b : Bool)
  | date (ms : Int)
deriving Repr, DecidableEq

/-- Host (JS engine) functions the server relies on.  `numberParse s` is
`Number(s)` on a nonempty string (`Option.none` encodes `NaN`); `parseFloatOk s`
is `!isNaN(parseFloat(s))`; `dateParse s` is `new Date(s).getTime()` with
`Option.none` for an invalid date; `dateToISO` is `Date.prototype.toISOString`;
`dateToStr` is `String(dateValue)`; `parseIntJs` is `parseInt` with
`Option.none` for `NaN`. -/
structure JsHost where
  numberParse : String → Option Int
  parseFloatOk : String → Bool
  dateParse : String → Option Int
  dateToISO : Int → String
  dateToStr : Int → String
  parseIntJs : String → Option Int

/-- A parsed CSV row: a JS object, i.e. an association list from property
names to values (first binding wins, as property names are unique). -/
abbrev JsRow : Type := List (String × JSVal)

/-- Property access `row[columnName]`: an absent property reads as
`undefined`. -/
def jsLookup (row : JsRow) (k : String) : JSVal :=
  match row.lookup k with
  | some v => v
  | Option.none => JSVal.undef

/-- The check `value === null || value === undefined || value === ''` that
starts both the inference loop and the coercion step. -/
def isEmptyVal : JSVal → Bool
  | JSVal.null => true
  | JSVal.undef => true
  | JSVal.str s => s = ""
  | _ => false

/-- `String.prototype.toLowerCase` restricted to the ASCII range, which is all
the source compares against (the literals `"true"` and `"false"`). -/
def lowerAscii (s : String) : String :=
  String.mk (s.data.map Char.toLower)

/-- The four accumulator flags of the inference loop. -/
structure TypeFlags where
  hasString : Bool
  hasNumber : Bool
  hasBoolean : Bool
  hasDate : Bool
deriving Repr, DecidableEq

/-- One iteration of the inference loop body (`for (const row of data)`) in
`inferSqlType` / `inferSequelizeType`: classify a single cell value and update
the four flags.  Empty values (`null`/`undefined`/`''`) are skipped. -/
def scanValue (h : JsHost) (f : TypeFlags) (v : JSVal) : TypeFlags :=
  match v with
  | JSVal.null => f
  | JSVal.undef => f
  | JSVal.str s =>
      if s = "" then f
      else
        let f1 := { f with hasString := true }
        if (h.numberParse s).isSome && h.parseFloatOk s then
          { f1 with hasNumber := true }
        else if lowerAscii s = "true" || lowerAscii s = "false" then
          { f1 with hasBoolean := true }
        else if (h.dateParse s).isSome then
          { f1 with hasDate := true }
        else f1
  | JSVal.num _ => { f with hasNumber := true }
  | JSVal.bool _ => { f with hasBoolean := true }
  | JSVal.date _ => { f with hasDate := true }

/-- The flag-accumulation loop of the inference functions: scan
`row[columnName]` for every row of `data`, starting from all-false flags. -/
def inferFlags (h : JsHost) (columnName : String) (data : List JsRow) : TypeFlags :=
  data.foldl (fun f row => scanValue h f (jsLookup row columnName)) ⟨false, false, false, false⟩

/-- The decision chain of `inferSqlType` (final variant), mapping the four
accumulated flags to a PostgreSQL type name. -/
def sqlTypeDecision (f : TypeFlags) : String :=
  if f.hasNumber && !f.hasString && !f.hasDate && !f.hasBoolean then "NUMERIC"
  else if f.hasDate && !f.hasString && !f.hasNumber && !f.hasBoolean then "TIMESTAMP WITH TIME ZONE"
  else if f.hasBoolean && !f.hasString && !f.hasNumber && !f.hasDate then "BOOLEAN"
  else if f.hasString then "VARCHAR(255)"
  else if f.hasNumber then "NUMERIC"
  else if f.hasBoolean then "BOOLEAN"
  else if f.hasDate then "TIMESTAMP WITH TIME ZONE"
  else "VARCHAR(255)"

/-- `inferSqlType(columnName, data)`: scan every row, then decide. -/
def inferSqlType (h : JsHost) (columnName : String) (data : List JsRow) : String :=
  sqlTypeDecision (inferFlags h columnName data)

/-- The Sequelize `DataTypes` constants used by the earlier variants. -/
inductive SeqType where
  | STRING
  | TEXT
  | DECIMAL
  | BIGINT
  | BOOLEAN
  | DATE
deriving Repr, DecidableEq

/-- The decision chain of `inferSequelizeType` (server.js variants), mapping
the four accumulated flags to a Sequelize data type. -/
def seqTypeDecision (f : TypeFlags) : SeqType :=
  if f.hasNumber && !f.hasString then SeqType.DECIMAL
  else if f.hasDate && !f.hasString && !f.hasNumber && !f.hasBoolean then SeqType.DATE
  else if f.hasBoolean && !f.hasString && !f.hasNumber && !f.hasDate then SeqType.BOOLEAN
  else if f.hasString && f.hasNumber then SeqType.TEXT
  else if f.hasString then SeqType.STRING
  else if f.hasNumber then SeqType.DECIMAL
  else if f.hasBoolean then SeqType.BOOLEAN
  else if f.hasDate then SeqType.DATE
  else SeqType.STRING

/-- `inferSequelizeType(columnName, data)`: scan every row, then decide. -/
def inferSequelizeType (h : JsHost) (columnName : String) (data : List JsRow) : SeqType :=
  seqTypeDecision (inferFlags h columnName data)

/-- The spec's four semantic column types. -/
inductive SemType where
  | Numeric
  | Boolean
  | Timestamp
  | Text
deriving Repr, DecidableEq

/-- Modelled from the spec: the nine-rule priority decision table of section
4.1, checked in order over the four accumulated flags. -/
def specDecisionTable (f : TypeFlags) : SemType :=
  if f.hasNumber && !f.hasString then SemType.Numeric
  else if f.hasDate && !f.hasString && !f.hasNumber && !f.hasBoolean then SemType.Timestamp
  else if f.hasBoolean && !f.hasString && !f.hasNumber && !f.hasDate then SemType.Boolean
  else if f.hasString && f.hasNumber then SemType.Text
  else if f.hasString then SemType.Text
  else if f.hasNumber then SemType.Numeric
  else if f.hasBoolean then SemType.Boolean
  else if f.hasDate then SemType.Timestamp
  else SemType.Text

/-- The semantic reading of the PostgreSQL type names `inferSqlType` can
return. -/
def semOfSqlType (t : String) : SemType :=
  if t = "NUMERIC" then SemType.Numeric
  else if t = "BOOLEAN" then SemType.Boolean
  else if t = "TIMESTAMP WITH TIME ZONE" then SemType.Timestamp
  else SemType.Text

/-- The semantic reading of the Sequelize data types (both `STRING` and `TEXT`
are spec-level Text, `DECIMAL` and `BIGINT` are Numeric). -/
def semOfSeqType : SeqType → SemType
  | SeqType.STRING => SemType.Text
  | SeqType.TEXT => SemType.Text
  | SeqType.DECIMAL => SemType.Numeric
  | SeqType.BIGINT => SemType.Numeric
  | SeqType.BOOLEAN => SemType.Boolean
  | SeqType.DATE => SemType.Timestamp

lemma sqlTypeDecision_matches_spec (f : TypeFlags) :
    semOfSqlType (sqlTypeDecision f) = specDecisionTable f := by
  rcases f with ⟨s, n, b, d⟩
  cases s <;> cases n <;> cases b <;> cases d <;> rfl

lemma seqTypeDecision_matches_spec (f : TypeFlags) :
    semOfSeqType (seqTypeDecision f) = specDecisionTable f := by
  rcases f with ⟨s, n, b, d⟩
  cases s <;> cases n <;> cases b <;> cases d <;> rfl

/-! ## SQL text generation helpers -/

/-- The single-quote character (written via its code point to keep the SQL
quoting explicit). -/
def sqlQuoteChar : Char := Char.ofNat 39

/-- A single quote as a one-character string. -/
def sqlQ : String := String.singleton sqlQuoteChar

/-- Double-quote an identifier, as the template literals `"${name}"` do. -/
def dq (s : String) : String := "\"" ++ s ++ "\""

/-- `name.replace(/[^a-zA-Z0-9_]/g, '_')`: every character outside
ASCII letters, digits and underscore becomes an underscore. -/
def sanitizeIdent (s : String) : String :=
  String.mk (s.data.map (fun c => if c.isAlphanum || c = '_' then c else '_'))

/-- `value.replace(/'/g, "''")`: double every embedded single quote. -/
def escapeSqlString (s : String) : String :=
  String.replace s sqlQ (sqlQ ++ sqlQ)

/-- The per-value rendering inside `generateDynamicInsertSql`:
`NULL` for `null`/`undefined`/`''`, a single-quoted escaped literal for
strings, `String(value)` for numbers and booleans, and a single-quoted
`toISOString()` for `Date` values. -/
def renderSqlValue (h : JsHost) : JSVal → String
  | JSVal.null => "NULL"
  | JSVal.undef => "NULL"
  | JSVal.str s => if s = "" then "NULL" else sqlQ ++ escapeSqlString s ++ sqlQ
  | JSVal.num n => toString n
  | JSVal.bool b => if b then "true" else "false"
  | JSVal.date ms => sqlQ ++ h.dateToISO ms ++ sqlQ

/-- `generateDynamicInsertSql(tableName, userData)` (final variant).  Throws
(modelled as `Except.error`) on a falsy table name; returns the empty string
for an empty row list; otherwise takes the column list from the first record's
keys (sanitized, then the two audit timestamp columns appended) and renders
one parenthesised tuple per record, closing each with two
`CURRENT_TIMESTAMP` entries. -/
def generateDynamicInsertSql (h : JsHost) (tableName : String) (userData : List JsRow) :
    Except String String :=
  if tableName = "" then Except.error "Table name must be provided."
  else
    match userData with
    | [] => Except.ok ""
    | firstRecord :: _ =>
        let columnNames := firstRecord.map Prod.fst
        let sanitizedColumnNames :=
          columnNames.map (fun nm => dq (sanitizeIdent nm)) ++ [dq "createdAt", dq "updatedAt"]
        let valuesClauses := userData.map (fun record =>
          "(" ++ String.intercalate ", "
              (columnNames.map (fun column => renderSqlValue h (jsLookup record column)))
            ++ ", CURRENT_TIMESTAMP, CURRENT_TIMESTAMP)")
        Except.ok ("INSERT INTO " ++ dq tableName ++ " ("
          ++ String.intercalate ", " sanitizedColumnNames ++ ")\nVALUES\n"
          ++ String.intercalate ",\n" valuesClauses ++ ";")

/-- The column definition for `createdAt` pushed by the DDL generator. -/
def createdAtColDef : String :=
  "\"createdAt\" TIMESTAMP WITH TIME ZONE DEFAULT CURRENT_TIMESTAMP"

/-- The column definition for `updatedAt` pushed by the DDL generator. -/
def updatedAtColDef : String :=
  "\"updatedAt\" TIMESTAMP WITH TIME ZONE DEFAULT CURRENT_TIMESTAMP"

/-- `generateDynamicCreateTableSql(tableName, userData, inferSqlTypeFunction)`
(final variant).  Throws on a falsy table name or an empty row list; otherwise
builds the column list: the serial primary key first, then one definition per
first-row key (sanitized name, inferred type, trailing space as in the
source's template literal), then the two audit timestamp columns. -/
def generateDynamicCreateTableSql (tableName : String) (userData : List JsRow)
    (inferSqlTypeFunction : String → List JsRow → String) : Except String String :=
  if tableName = "" then Except.error "Table name must be provided."
  else
    match userData with
    | [] => Except.error "User data is empty, cannot infer schema for dynamic table creation."
    | firstRow :: _ =>
        let columns :=
          ("\"id\" SERIAL PRIMARY KEY"
            :: (firstRow.map Prod.fst).map (fun feature =>
                  dq (sanitizeIdent feature) ++ " " ++ inferSqlTypeFunction feature userData ++ " "))
          ++ [createdAtColDef, updatedAtColDef]
        Except.ok ("CREATE TABLE IF NOT EXISTS " ++ dq tableName ++ " (\n    "
          ++ String.intercalate ",\n    " columns ++ "\n);")

/-! ## Value coercion (the `processedUserData` mapping of the Sequelize
variants) -/

/-- `Number(value)` for the values reachable in a row cell; `Option.none`
encodes `NaN`.  `Number(null)` is `0`, `Number(undefined)` is `NaN`,
`Number('')` is `0`, booleans coerce to `1`/`0`, a `Date` to its epoch
milliseconds. -/
def jsNumberOf (h : JsHost) : JSVal → Option Int
  | JSVal.null => some 0
  | JSVal.undef => Option.none
  | JSVal.str s => if s = "" then some 0 else h.numberParse s
  | JSVal.num n => some n
  | JSVal.bool b => some (if b then 1 else 0)
  | JSVal.date ms => some ms

/-- `new Date(value).getTime()`; `Option.none` encodes an invalid date.
`new Date(null)` is the epoch, `new Date(undefined)` is invalid, numbers and
booleans are taken as millisecond offsets. -/
def jsDateOf (h : JsHost) : JSVal → Option Int
  | JSVal.null => some 0
  | JSVal.undef => Option.none
  | JSVal.str s => h.dateParse s
  | JSVal.num n => some n
  | JSVal.bool b => some (if b then 1 else 0)
  | JSVal.date ms => some ms

/-- `String(value)`. -/
def jsStringOf (h : JsHost) : JSVal → String
  | JSVal.null => "null"
  | JSVal.undef => "undefined"
  | JSVal.str s => s
  | JSVal.num n => toString n
  | JSVal.bool b => if b then "true" else "false"
  | JSVal.date ms => h.dateToStr ms

/-- `Boolean(value)`: JS truthiness. -/
def jsTruthy : JSVal → Bool
  | JSVal.null => false
  | JSVal.undef => false
  | JSVal.str s => s ≠ ""
  | JSVal.num n => n ≠ 0
  | JSVal.bool b => b
  | JSVal.date _ => true

/-- The per-cell body of the `processedUserData` mapping (Sequelize variants):
empty values become `null` for every type; under `DECIMAL` a failed numeric
parse becomes `null`; under `BOOLEAN` strings compare case-insensitively to
`'true'` and other values use truthiness; under `DATE` an invalid date becomes
`null`; every other type stringifies the value. -/
def coerceValue (h : JsHost) (v : JSVal) (inferredType : SeqType) : JSVal :=
  if isEmptyVal v then JSVal.null
  else
    match inferredType with
    | SeqType.DECIMAL =>
        match jsNumberOf h v with
        | Option.none => JSVal.null
        | some n => JSVal.num n
    | SeqType.BOOLEAN =>
        match v with
        | JSVal.str s => JSVal.bool (lowerAscii s = "true")
        | _ => JSVal.bool (jsTruthy v)
    | SeqType.DATE =>
        match jsDateOf h v with
        | Option.none => JSVal.null
        | some ms => JSVal.date ms
    | _ => JSVal.str (jsStringOf h v)

/-- The whole `processedUserData` computation: every cell of every row is
coerced under the type re-inferred for its column over the full row set. -/
def processedUserData (h : JsHost) (userData : List JsRow) : List JsRow :=
  userData.map (fun row =>
    row.map (fun fv => (fv.1, coerceValue h fv.2 (inferSequelizeType h fv.1 userData))))

/-! ## Durable database state and the endpoint handlers (final variant) -/

/-- The materialized `"data"` table as the SQL collaborator holds it: its
catalog column list in ordinal position, and its rows in primary-key order
(rows are appended in insertion order with a serial key). -/
structure DataTbl where
  cols : List String
  rows : List JsRow
deriving Repr, DecidableEq

/-- The durable server-visible state: whether an `UploadedFile` metadata row
with `publicId = 'data.csv'` exists, and the `"data"` table when it exists in
the catalog (`Option.none` means absent).  The final variant keeps no
in-process dataset state, so this record is the whole state. -/
structure SrvState where
  hasMeta : Bool
  dataTable : Option DataTbl
deriving Repr, DecidableEq

/-- The kinds of SQL statements the `/api/data` handler issues, in order. -/
inductive SqlOp where
  | catalogExists
  | catalogColumns
  | countAll
  | selectPage
deriving Repr, DecidableEq

/-- `parseInt(q) || d`: an absent parameter, a `NaN` parse, and a parsed `0`
are all falsy and fall back to the default. -/
def jsParseIntOr (h : JsHost) (q : Option String) (d : Int) : Int :=
  match q with
  | Option.none => d
  | some s =>
      match h.parseIntJs s with
      | Option.none => d
      | some n => if n = 0 then d else n

/-- `Math.ceil(count / limit)` for the positive limits reachable in the
handler (`limit` is never `0` there since `0` falls back to the default). -/
def jsMathCeilDiv (count : Nat) (limit : Int) : Nat :=
  (count + limit.toNat - 1) / limit.toNat

/-- The SELECT result shape: each returned row holds the desired columns in
catalog order. -/
def projectRow (cols : List String) (r : JsRow) : JsRow :=
  cols.map (fun c => (c, jsLookup r c))

/-- `generatePaginatedDataQuery(sql, tableName, offset, limit)` (final
variant): reads the column list from `information_schema.columns`, drops the
two audit columns, fails when nothing remains, counts all rows, then selects
the page ordered by `"id"` ascending with the given OFFSET/LIMIT.  A negative
OFFSET or LIMIT is rejected by the PostgreSQL collaborator, which the model
reflects as an error. -/
def generatePaginatedDataQuery (tableName : String) (tbl : DataTbl)
    (offset limit : Int) : Except String (Nat × List JsRow) :=
  if tableName = "" then Except.error "Table name must be provided."
  else
    let desiredColumns := tbl.cols.filter (fun c => !(["createdAt", "updatedAt"].contains c))
    if desiredColumns = [] then
      Except.error ("No selectable columns found for table " ++ dq tableName ++ " after exclusion.")
    else
      let count := tbl.rows.length
      if offset < 0 || limit < 0 then Except.error "OFFSET/LIMIT must not be negative"
      else
        Except.ok (count,
          ((tbl.rows.drop offset.toNat).take limit.toNat).map (projectRow desiredColumns))

/-- What the `/api/data` handler can answer. -/
inductive PageResult where
  | notFound
  | ok (data : List JsRow) (lastPage : Nat) (totalCount : Nat)
  | serverError
deriving Repr, DecidableEq

/-- The rows of an `ok` page answer (empty otherwise). -/
def pageData : PageResult → List JsRow
  | PageResult.ok d _ _ => d
  | _ => []

/-- The `lastPage` of an `ok` page answer (zero otherwise). -/
def pageLastPage : PageResult → Nat
  | PageResult.ok _ lp _ => lp
  | _ => 0

/-- The `totalCount` of an `ok` page answer (zero otherwise). -/
def pageTotalCount : PageResult → Nat
  | PageResult.ok _ _ c => c
  | _ => 0

/-- The `/api/data` handler (final variant) together with the ordered trace of
SQL statements it issues: first the `information_schema.tables` existence
check; on absence it answers 404 immediately; otherwise it parses the
pagination parameters with their defaults and delegates to
`generatePaginatedDataQuery`, answering 500 when that throws. -/
def apiDataRun (h : JsHost) (s : SrvState) (pageQ limitQ : Option String) :
    PageResult × List SqlOp :=
  match s.dataTable with
  | Option.none => (PageResult.notFound, [SqlOp.catalogExists])
  | some tbl =>
      let page := jsParseIntOr h pageQ 1
      let limit := jsParseIntOr h limitQ 10
      let offset := (page - 1) * limit
      match generatePaginatedDataQuery "data" tbl offset limit with
      | Except.error _ => (PageResult.serverError, [SqlOp.catalogExists, SqlOp.catalogColumns])
      | Except.ok (count, rows) =>
          (PageResult.ok rows (jsMathCeilDiv count limit) count,
            [SqlOp.catalogExists, SqlOp.catalogColumns, SqlOp.countAll, SqlOp.selectPage])

/-- The `/api/check-table` handler (final variant): `status` is `true` exactly
when a metadata row with `publicId = 'data.csv'` exists in `UploadedFile`; the
`"data"` table itself is never consulted. -/
def checkTableHandler (s : SrvState) : Bool :=
  s.hasMeta

/-! ## The upload lifecycle (final variant of `/api/upload`) -/

/-- Failure injection points for the external collaborators the upload handler
calls, in the order the handler reaches them.  `noFailure` means every
collaborator call succeeds. -/
inductive FailPoint where
  | noFailure
  | atDestroyOldBlob
  | atBlobUpload
  | atFetchBlob
  | atAiService
  | atCreateDdl
  | atInsertDml
deriving Repr, DecidableEq

/-- The catalog column list of the table the generated DDL creates: the serial
primary key, one sanitized column per first-row key, then the audit columns. -/
def createdTableCols (userData : List JsRow) : List String :=
  match userData with
  | [] => []
  | firstRow :: _ =>
      "id" :: (firstRow.map Prod.fst).map sanitizeIdent ++ ["createdAt", "updatedAt"]

/-- The fresh-admission tail of the upload handler, entered once any previous
dataset has been evicted (or none existed): Cloudinary upload, metadata
insert, blob re-fetch, AI-service call, dynamic CREATE TABLE, dynamic INSERT.
Returns the resulting durable state and whether the request answered 200.
A thrown generator error or an injected collaborator failure is caught by the
handler's try/catch and answered as 500 — with no compensating action, so
whatever state had accumulated remains. -/
def uploadFresh (h : JsHost) (s : SrvState) (userData : List JsRow) (fp : FailPoint) :
    SrvState × Bool :=
  if fp = FailPoint.atBlobUpload then (s, false)
  else
    let s1 : SrvState := { s with hasMeta := true }
    if fp = FailPoint.atFetchBlob then (s1, false)
    else if fp = FailPoint.atAiService then (s1, false)
    else
      match generateDynamicCreateTableSql "data" userData (inferSqlType h) with
      | Except.error _ => (s1, false)
      | Except.ok _ =>
          if fp = FailPoint.atCreateDdl then (s1, false)
          else
            let s2 : SrvState :=
              { s1 with
                dataTable := some (match s1.dataTable with
                  | some tbl => tbl
                  | Option.none => ⟨createdTableCols userData, []⟩) }
            match generateDynamicInsertSql h "data" userData with
            | Except.error _ => (s2, false)
            | Except.ok _ =>
              if fp = FailPoint.atInsertDml then (s2, false)
              else
                match s2.dataTable with
                | some tbl => ({ s2 with dataTable := some ⟨tbl.cols, tbl.rows ++ userData⟩ }, true)
                | Option.none => (s2, false)

/-- The `/api/upload` handler of the final variant: when a previous metadata
row exists, drop the `"data"` table (checked against the catalog first) and
delete the old blob and metadata row, then run the fresh-admission sequence.
A failure destroying the old blob happens after the drop but before the
metadata delete. -/
def uploadHandler (h : JsHost) (s : SrvState) (userData : List JsRow) (fp : FailPoint) :
    SrvState × Bool :=
  if s.hasMeta then
    if fp = FailPoint.atDestroyOldBlob then (⟨true, Option.none⟩, false)
    else uploadFresh h ⟨false, Option.none⟩ userData fp
  else uploadFresh h s userData fp

/-- The `DELETE /api/table` handler (final variant): drop the `"data"` table
if it exists, and delete the metadata row (and blob) if present.  Whatever the
collaborators answer, the durable state afterwards is fully absent. -/
def deleteTableHandler (_s : SrvState) : SrvState :=
  ⟨false, Option.none⟩

/-- One externally triggered state transition of the server. -/
inductive SrvOp where
  | upload (userData : List JsRow) (fp : FailPoint)
  | deleteTable
deriving Repr

/-- Apply one operation to the durable state. -/
def applyOp (h : JsHost) (s : SrvState) : SrvOp → SrvState
  | SrvOp.upload d fp => (uploadHandler h s d fp).1
  | SrvOp.deleteTable => deleteTableHandler s

/-- Run a sequence of operations from the initial (fully absent) state. -/
def runOps (h : JsHost) (ops : List SrvOp) : SrvState :=
  ops.foldl (applyOp h) ⟨false, Option.none⟩

/-! ## A concrete host and sample data for witnesses and scenarios -/

/-- Parse a nonempty all-digit character list as a natural number. -/
def natOfDigits? : List Char → Option Nat
  | [] => Option.none
  | l =>
      l.foldl (fun acc c =>
        match acc with
        | Option.none => Option.none
        | some n => if c.isDigit then some (n * 10 + (c.toNat - 48)) else Option.none)
        (some 0)

/-- Parse an optionally-signed decimal integer literal (a small executable
stand-in for the host's integer parsing, used only to instantiate theorems at
concrete inputs). -/
def parseDecInt (s : String) : Option Int :=
  match s.data with
  | [] => Option.none
  | c :: cs =>
      if c = '-' then (natOfDigits? cs).map (fun n => -(Int.ofNat n))
      else (natOfDigits? (c :: cs)).map Int.ofNat

/-- A concrete host environment used to instantiate the host-polymorphic
theorems: integer-literal parsing for `Number`/`parseFloat`/`parseInt`, no
string parses as a date, and placeholder date renderings. -/
def sampleHost : JsHost where
  numberParse := parseDecInt
  parseFloatOk := fun s => (parseDecInt s).isSome
  dateParse := fun _ => Option.none
  dateToISO := fun ms => toString ms
  dateToStr := fun ms => toString ms
  parseIntJs := parseDecInt

/-- A small parsed CSV: two rows, one numeric-string column. -/
def sampleRows : List JsRow :=
  [[("amt", JSVal.str "10")], [("amt", JSVal.str "25")]]

/-- A 25-row table as materialized by an upload: serial key plus one data
column, audit columns last. -/
def sample25 : DataTbl :=
  ⟨["id", "amt", "createdAt", "updatedAt"],
    (List.range 25).map (fun i => [("id", JSVal.num i), ("amt", JSVal.num (10 * i))])⟩

/-! ## Claim theorems -/

/-- Claim C2: for every host, column name and row set, the type inferred by
`inferSqlType` (and by `inferSequelizeType`) equals the spec's nine-rule
priority decision table applied to the four accumulated flags; in particular
sawNumber without sawString gives Numeric, sawNumber together with sawString
gives Text, and all flags false (an all-empty column) gives Text. -/
theorem inferType_matches_spec_table (h : JsHost) (col : String) (data : List JsRow) :
    semOfSqlType (inferSqlType h col data) = specDecisionTable (inferFlags h col data) ∧
    semOfSeqType (inferSequelizeType h col data) = specDecisionTable (inferFlags h col data) ∧
    ((inferFlags h col data).hasNumber = true → (inferFlags h col data).hasString = false →
      semOfSqlType (inferSqlType h col data) = SemType.Numeric) ∧
    ((inferFlags h col data).hasNumber = true → (inferFlags h col data).hasString = true →
      semOfSqlType (inferSqlType h col data) = SemType.Text) ∧
    (inferFlags h col data = ⟨false, false, false, false⟩ →
      semOfSqlType (inferSqlType h col data) = SemType.Text) := by
  unfold inferSqlType inferSequelizeType
  generalize inferFlags h col data = f
  rcases f with ⟨s, n, b, d⟩
  cases s <;> cases n <;> cases b <;> cases d <;> exact by decide

/-- Witness for C2 at a concrete input: a purely numeric (already typed)
column of `[{amt: 7}, {amt: 8}]` infers Numeric. -/
theorem inferType_matches_spec_table_witness :
    semOfSqlType (inferSqlType sampleHost "amt"
        [[("amt", JSVal.num 7)], [("amt", JSVal.num 8)]]) = SemType.Numeric :=
  (inferType_matches_spec_table sampleHost "amt"
      [[("amt", JSVal.num 7)], [("amt", JSVal.num 8)]]).2.2.1 rfl rfl

/-- Claim C3: `/api/data` answers not-found exactly when the `"data"` table is
absent from the durable catalog; the catalog existence check is the first SQL
statement issued, and when the table is absent it is the only one — the
handler consults no in-process state (its only input is the durable state) and
infers nothing from a failed data query. -/
theorem apiData_notFound_iff_absent (h : JsHost) (s : SrvState) (pageQ limitQ : Option String) :
    ((apiDataRun h s pageQ limitQ).1 = PageResult.notFound ↔ s.dataTable = Option.none) ∧
    (apiDataRun h s pageQ limitQ).2.head? = some SqlOp.catalogExists ∧
    (s.dataTable = Option.none → (apiDataRun h s pageQ limitQ).2 = [SqlOp.catalogExists]) := by
  rcases s with ⟨m, tblOpt⟩
  cases tblOpt with
  | none => exact ⟨by simp [apiDataRun], rfl, fun _ => rfl⟩
  | some tbl =>
      refine ⟨?_, ?_, ?_⟩
      · constructor
        · intro hres
          rcases hgen : generatePaginatedDataQuery "data" tbl
              ((jsParseIntOr h pageQ 1 - 1) * jsParseIntOr h limitQ 10)
              (jsParseIntOr h limitQ 10) with e | p
          · simp [apiDataRun, hgen] at hres
          · rcases p with ⟨count, rows⟩
            simp [apiDataRun, hgen] at hres
        · intro habs
          simp at habs
      · rcases hgen : generatePaginatedDataQuery "data" tbl
            ((jsParseIntOr h pageQ 1 - 1) * jsParseIntOr h limitQ 10)
            (jsParseIntOr h limitQ 10) with e | p
        · simp [apiDataRun, hgen]
        · rcases p with ⟨count, rows⟩
          simp [apiDataRun, hgen]
      · intro habs
        simp at habs

/-- Witness for C3 at a concrete input: against the absent state the handler
issues only the catalog existence check. -/
theorem apiData_notFound_iff_absent_witness :
    (apiDataRun sampleHost ⟨false, Option.none⟩ Option.none Option.none).2 =
      [SqlOp.catalogExists] :=
  (apiData_notFound_iff_absent sampleHost ⟨false, Option.none⟩ Option.none Option.none).2.2 rfl

/-- Claim C4: coercion is a total function that degrades to `null` instead of
failing: empty inputs (`null`/`undefined`/`''`) coerce to `null` under every
inferred type, a failed numeric parse under `DECIMAL` coerces to `null`, and a
failed date parse under `DATE` coerces to `null`. -/
theorem coerceValue_degrades_to_null (h : JsHost) (v : JSVal) (t : SeqType) :
    (isEmptyVal v = true → coerceValue h v t = JSVal.null) ∧
    (jsNumberOf h v = Option.none → coerceValue h v SeqType.DECIMAL = JSVal.null) ∧
    (jsDateOf h v = Option.none → coerceValue h v SeqType.DATE = JSVal.null) := by
  refine ⟨fun hempty => ?_, fun hnum => ?_, fun hdate => ?_⟩
  · simp [coerceValue, hempty]
  · by_cases hempty : isEmptyVal v = true
    · simp [coerceValue, hempty]
    · simp [coerceValue, hempty, hnum]
  · by_cases hempty : isEmptyVal v = true
    · simp [coerceValue, hempty]
    · simp [coerceValue, hempty, hdate]

/-- Witness for C4 at a concrete input: the non-numeric string `"abc"` under
`DECIMAL` coerces to `null`. -/
theorem coerceValue_degrades_to_null_witness :
    coerceValue sampleHost (JSVal.str "abc") SeqType.DECIMAL = JSVal.null :=
  (coerceValue_degrades_to_null sampleHost (JSVal.str "abc") SeqType.DECIMAL).2.1 (by decide)

/-- Claim C5: the bulk-insert generator returns the empty no-op statement for
zero rows; for a nonempty row list the column list is the first row's keys in
original order (sanitized) with the two audit timestamp columns appended last,
each row renders one tuple over exactly those keys, and each value renders as
`NULL` for null/undefined/empty, a single-quoted literal with embedded single
quotes doubled for strings, an unquoted literal for numbers and booleans, and
a single-quoted `toISOString()` rendering for `Date` values. -/
theorem insertSql_shape (h : JsHost) (t : String) (ht : t ≠ "") :
    generateDynamicInsertSql h t [] = Except.ok "" ∧
    (∀ (r0 : JsRow) (rest : List JsRow),
      generateDynamicInsertSql h t (r0 :: rest) =
        Except.ok ("INSERT INTO " ++ dq t ++ " ("
          ++ String.intercalate ", "
              ((r0.map Prod.fst).map (fun nm => dq (sanitizeIdent nm))
                ++ [dq "createdAt", dq "updatedAt"]) ++ ")\nVALUES\n"
          ++ String.intercalate ",\n"
              ((r0 :: rest).map (fun record =>
                "(" ++ String.intercalate ", "
                    ((r0.map Prod.fst).map (fun column => renderSqlValue h (jsLookup record column)))
                  ++ ", CURRENT_TIMESTAMP, CURRENT_TIMESTAMP)")) ++ ";")) ∧
    renderSqlValue h JSVal.null = "NULL" ∧
    renderSqlValue h JSVal.undef = "NULL" ∧
    renderSqlValue h (JSVal.str "") = "NULL" ∧
    (∀ sVal : String, sVal ≠ "" →
      renderSqlValue h (JSVal.str sVal) = sqlQ ++ escapeSqlString sVal ++ sqlQ) ∧
    (∀ n : Int, renderSqlValue h (JSVal.num n) = toString n) ∧
    (∀ b : Bool, renderSqlValue h (JSVal.bool b) = (if b then "true" else "false")) ∧
    (∀ ms : Int, renderSqlValue h (JSVal.date ms) = sqlQ ++ h.dateToISO ms ++ sqlQ) := by
  refine ⟨by simp [generateDynamicInsertSql, ht], fun r0 rest => ?_, rfl, rfl, by simp [renderSqlValue],
    fun sVal hs => by simp [renderSqlValue, hs], fun n => rfl, fun b => rfl, fun ms => rfl⟩
  simp [generateDynamicInsertSql, ht]

/-- Witness for C5 at a concrete input: zero rows generate the empty
statement. -/
theorem insertSql_shape_witness :
    generateDynamicInsertSql sampleHost "data" [] = Except.ok "" :=
  (insertSql_shape sampleHost "data" (by decide)).1

/-- Claim C6: for every nonempty table name, nonempty row list and inference
function, the DDL generator emits a `CREATE TABLE IF NOT EXISTS` statement
whose column definitions are, in order: the generated serial primary key
first, then one definition per first-row key — its name sanitized by
replacing every character outside `[A-Za-z0-9_]` with an underscore, without
deduplication, typed by the inference function — then the two audit timestamp
columns with `DEFAULT CURRENT_TIMESTAMP` last.  The sanitizer maps each
character independently and only ever outputs ASCII alphanumerics or
underscores. -/
theorem createTableSql_shape (t : String) (r0 : JsRow) (rest : List JsRow)
    (f : String → List JsRow → String) (ht : t ≠ "") :
    generateDynamicCreateTableSql t (r0 :: rest) f =
      Except.ok ("CREATE TABLE IF NOT EXISTS " ++ dq t ++ " (\n    "
        ++ String.intercalate ",\n    "
            (("\"id\" SERIAL PRIMARY KEY"
              :: (r0.map Prod.fst).map (fun feature =>
                   dq (sanitizeIdent feature) ++ " " ++ f feature (r0 :: rest) ++ " "))
              ++ [createdAtColDef, updatedAtColDef]) ++ "\n);") ∧
    (∀ nm : String,
      (sanitizeIdent nm).data = nm.data.map (fun c => if c.isAlphanum || c = '_' then c else '_')) ∧
    (∀ nm : String, ∀ c ∈ (sanitizeIdent nm).data, c.isAlphanum = true ∨ c = '_') := by
  refine ⟨by simp [generateDynamicCreateTableSql, ht], fun nm => rfl, fun nm c hc => ?_⟩
  rw [sanitizeIdent] at hc
  rcases List.mem_map.1 hc with ⟨c0, _, rfl⟩
  by_cases hA : c0.isAlphanum = true
  · simp [hA]
  · by_cases hU : c0 = '_'
    · simp [hU]
    · simp [hA, hU]

/-- Witness for C6 at a concrete input: one row with a dotted column name
yields the pk-first, sanitized, audit-last column list. -/
theorem createTableSql_shape_witness :
    generateDynamicCreateTableSql "data" [[("a.b", JSVal.num 1)]] (inferSqlType sampleHost) =
      Except.ok ("CREATE TABLE IF NOT EXISTS " ++ dq "data" ++ " (\n    "
        ++ String.intercalate ",\n    "
            (("\"id\" SERIAL PRIMARY KEY"
              :: ([("a.b", JSVal.num 1)].map Prod.fst).map (fun feature =>
                   dq (sanitizeIdent feature) ++ " "
                     ++ inferSqlType sampleHost feature [[("a.b", JSVal.num 1)]] ++ " "))
              ++ [createdAtColDef, updatedAtColDef]) ++ "\n);") :=
  (createTableSql_shape "data" [("a.b", JSVal.num 1)] [] (inferSqlType sampleHost) (by decide)).1

/-- Claim C7: for every pagination request against a present table the
handler answers the page at `offset = (page - 1) * limit` of length at most
`limit`, with `totalCount` the full row count and
`lastPage = ceil(totalCount / limit)` (stated via the library's ceiling
division); `page` and `limit` default to 1 and 10 when the query parameter is
absent or fails to parse, and no upper bound is applied to either. -/
theorem apiData_pagination (h : JsHost) (m : Bool) (tbl : DataTbl)
    (pageQ limitQ : Option String)
    (hcols : tbl.cols.filter (fun c => !(["createdAt", "updatedAt"].contains c)) ≠ [])
    (hp : 1 ≤ jsParseIntOr h pageQ 1) (hl : 1 ≤ jsParseIntOr h limitQ 10) :
    (apiDataRun h ⟨m, some tbl⟩ pageQ limitQ).1 =
      PageResult.ok
        (((tbl.rows.drop ((jsParseIntOr h pageQ 1 - 1) * jsParseIntOr h limitQ 10).toNat).take
            (jsParseIntOr h limitQ 10).toNat).map
          (projectRow (tbl.cols.filter (fun c => !(["createdAt", "updatedAt"].contains c)))))
        (jsMathCeilDiv tbl.rows.length (jsParseIntOr h limitQ 10))
        tbl.rows.length ∧
    jsMathCeilDiv tbl.rows.length (jsParseIntOr h limitQ 10) =
      tbl.rows.length ⌈/⌉ (jsParseIntOr h limitQ 10).toNat ∧
    jsParseIntOr h Option.none 1 = 1 ∧
    jsParseIntOr h Option.none 10 = 10 ∧
    (∀ qs : String, h.parseIntJs qs = Option.none →
      jsParseIntOr h (some qs) 1 = 1 ∧ jsParseIntOr h (some qs) 10 = 10) := by
  refine ⟨?_, rfl, rfl, rfl, fun qs hqs => by simp [jsParseIntOr, hqs]⟩
  have hoff : ¬((jsParseIntOr h pageQ 1 - 1) * jsParseIntOr h limitQ 10 < 0 ∨
      jsParseIntOr h limitQ 10 < 0) := by
    push_neg
    exact ⟨mul_nonneg (by omega) (by omega), by omega⟩
  have hgen : generatePaginatedDataQuery "data" tbl
      ((jsParseIntOr h pageQ 1 - 1) * jsParseIntOr h limitQ 10) (jsParseIntOr h limitQ 10) =
      Except.ok (tbl.rows.length,
        ((tbl.rows.drop ((jsParseIntOr h pageQ 1 - 1) * jsParseIntOr h limitQ 10).toNat).take
            (jsParseIntOr h limitQ 10).toNat).map
          (projectRow (tbl.cols.filter (fun c => !(["createdAt", "updatedAt"].contains c))))) := by
    rw [not_or] at hoff
    simp [generatePaginatedDataQuery, hcols, hoff.1, hoff.2]
    obtain ⟨x, hx⟩ := List.exists_mem_of_ne_nil _ hcols
    rw [List.mem_filter] at hx
    exact ⟨x, hx.1, by simpa using hx.2⟩
  simp [apiDataRun, hgen]

/-- Witness for C7, the spec's concrete scenario: page 3 with size 10 against
a 25-row dataset returns 5 rows with `lastPage = 3` and `totalCount = 25`. -/
theorem apiData_pagination_witness :
    (apiDataRun sampleHost ⟨true, some sample25⟩ (some "3") (some "10")).1 =
      PageResult.ok
        (((sample25.rows.drop ((jsParseIntOr sampleHost (some "3") 1 - 1)
              * jsParseIntOr sampleHost (some "10") 10).toNat).take
            (jsParseIntOr sampleHost (some "10") 10).toNat).map
          (projectRow (sample25.cols.filter (fun c => !(["createdAt", "updatedAt"].contains c)))))
        (jsMathCeilDiv sample25.rows.length (jsParseIntOr sampleHost (some "10") 10))
        sample25.rows.length ∧
    (pageData (apiDataRun sampleHost ⟨true, some sample25⟩ (some "3") (some "10")).1).length = 5 ∧
    pageLastPage (apiDataRun sampleHost ⟨true, some sample25⟩ (some "3") (some "10")).1 = 3 ∧
    pageTotalCount (apiDataRun sampleHost ⟨true, some sample25⟩ (some "3") (some "10")).1 = 25 :=
  ⟨(apiData_pagination sampleHost true sample25 (some "3") (some "10")
      (by decide) (by decide) (by decide)).1,
    by decide, by decide, by decide⟩

/-- Counterexample to claim C8 as stated: a dataset with one row and zero
data columns (its first record is the empty object) is not rejected — the
generator emits a degenerate table with only the primary key and the audit
columns instead of raising. -/
theorem createTable_zeroColumns_accepted :
    generateDynamicCreateTableSql "data" [[]] (inferSqlType sampleHost) =
      Except.ok ("CREATE TABLE IF NOT EXISTS \"data\" (\n    \"id\" SERIAL PRIMARY KEY,\n    \"createdAt\" TIMESTAMP WITH TIME ZONE DEFAULT CURRENT_TIMESTAMP,\n    \"updatedAt\" TIMESTAMP WITH TIME ZONE DEFAULT CURRENT_TIMESTAMP\n);") := by
  rfl

/-- Claim C8 as amended: the DDL generator raises exactly when the row list is
empty (its guard is on rows, not columns): for every nonempty table name and
every inference function, zero rows yield the documented error. -/
theorem createTable_emptyRows_raises (t : String) (f : String → List JsRow → String)
    (ht : t ≠ "") :
    generateDynamicCreateTableSql t [] f =
      Except.error "User data is empty, cannot infer schema for dynamic table creation." := by
  simp [generateDynamicCreateTableSql, ht]

/-- Witness for the amended C8 at a concrete input. -/
theorem createTable_emptyRows_raises_witness :
    generateDynamicCreateTableSql "data" [] (inferSqlType sampleHost) =
      Except.error "User data is empty, cannot infer schema for dynamic table creation." :=
  createTable_emptyRows_raises "data" (inferSqlType sampleHost) (by decide)

/-- Claim C9: `/api/check-table` answers true exactly when the metadata row
with `publicId = 'data.csv'` exists, it never reads the `"data"` table, and a
state where the metadata row is present while the materialized table is
absent is reachable (an upload whose CREATE TABLE is rejected by the engine),
in which the endpoint still answers true. -/
theorem checkTable_reads_metadata_only :
    (∀ s : SrvState, checkTableHandler s = true ↔ s.hasMeta = true) ∧
    (∀ (m : Bool) (tb tb' : Option DataTbl),
      checkTableHandler ⟨m, tb⟩ = checkTableHandler ⟨m, tb'⟩) ∧
    (runOps sampleHost [SrvOp.upload sampleRows FailPoint.atCreateDdl]).hasMeta = true ∧
    (runOps sampleHost [SrvOp.upload sampleRows FailPoint.atCreateDdl]).dataTable =
      Option.none ∧
    checkTableHandler (runOps sampleHost [SrvOp.upload sampleRows FailPoint.atCreateDdl]) =
      true :=
  ⟨fun _ => Iff.rfl, fun _ _ _ => rfl, by decide, by decide, by decide⟩

/-- Claim C1 is violated by the final upload handler: evaluating the handler
from the empty state on a two-row CSV with the bulk INSERT rejected by the
engine, the request fails (500) but the just-created empty `"data"` table is
left in place — no compensating drop happens. -/
theorem upload_insertFailure_leavesTable :
    (uploadHandler sampleHost ⟨false, Option.none⟩ sampleRows FailPoint.atInsertDml).1 =
      ⟨true, some ⟨["id", "amt", "createdAt", "updatedAt"], []⟩⟩ ∧
    (uploadHandler sampleHost ⟨false, Option.none⟩ sampleRows FailPoint.atInsertDml).2 = false ∧
    (uploadHandler sampleHost ⟨false, Option.none⟩ sampleRows FailPoint.atInsertDml).1.dataTable
      ≠ Option.none :=
  ⟨by decide, by decide, by decide⟩

lemma jsLookup_append_single (rec : JsRow) (k c : String) (v : JSVal) (hck : c ≠ k) :
    jsLookup (rec ++ [(k, v)]) c = jsLookup rec c := by
  unfold jsLookup
  induction rec with
  | nil => simp [List.lookup, beq_false_of_ne hck]
  | cons a tl ih =>
      rcases a with ⟨ak, av⟩
      by_cases hak : c = ak
      · subst hak
        simp [List.lookup]
      · simp only [List.cons_append, List.lookup, beq_false_of_ne hak]
        exact ih

/-- Claim C10: the generated INSERT renders values only for keys of the first
row — appending a binding for a key that the first row lacks to any later
record leaves the generated statement unchanged, and for every record the
rendered tuple has exactly one entry per first-row key (so stray keys can
never cause a column-count mismatch or an error). -/
theorem insertSql_ignores_stray_keys (h : JsHost) (t : String) (r0 rec : JsRow)
    (pre post : List JsRow) (k : String) (v : JSVal) (hk : k ∉ r0.map Prod.fst) :
    generateDynamicInsertSql h t (r0 :: (pre ++ (rec ++ [(k, v)]) :: post)) =
      generateDynamicInsertSql h t (r0 :: (pre ++ rec :: post)) ∧
    (∀ record : JsRow,
      ((r0.map Prod.fst).map (fun column => renderSqlValue h (jsLookup record column))).length
        = r0.length) := by
  refine ⟨?_, fun record => by simp⟩
  have hrow : (r0.map Prod.fst).map
        (fun column => renderSqlValue h (jsLookup (rec ++ [(k, v)]) column)) =
      (r0.map Prod.fst).map (fun column => renderSqlValue h (jsLookup rec column)) := by
    apply List.map_congr_left
    intro c hc
    rw [jsLookup_append_single rec k c v (fun hck => hk (hck ▸ hc))]
  simp only [generateDynamicInsertSql]
  split
  · rfl
  · simp only [List.map_append, List.map_cons, hrow]

/-- Witness for C10 at a concrete input: a `"stray"` key appearing only in the
second row changes nothing in the generated INSERT. -/
theorem insertSql_ignores_stray_keys_witness :
    generateDynamicInsertSql sampleHost "data"
        [[("amt", JSVal.num 1)], [("amt", JSVal.num 2), ("stray", JSVal.num 9)]] =
      generateDynamicInsertSql sampleHost "data"
        [[("amt", JSVal.num 1)], [("amt", JSVal.num 2)]] :=
  (insertSql_ignores_stray_keys sampleHost "data" [("amt", JSVal.num 1)]
      [("amt", JSVal.num 2)] [] [] "stray" (JSVal.num 9) (by decide)).1
